import Mathlib

/-!
# Verification of the social-sync request handlers (src/app.py)

A shallow embedding of the two Flask handlers `generate` and
`post_to_twitter`.  JSON payload values are modelled by `PyVal`
(Python-style truthiness, `str()` rendering and `int()` casting are made
explicit); a payload is an association list of string keys to values, and
a missing JSON body is `Option.none`.  The external collaborators
(OpenAI, Twitter) are oracles passed in as functions; each handler
returns its structured result together with the list of texts actually
sent to the collaborator, so "no external call occurs" is the statement
that this list is empty.
-/

/-- A Python value as it can appear in a parsed JSON payload. -/
inductive PyVal where
  | str (s : String)
  | int (n : Int)
  | bool (b : Bool)
  | list (xs : List PyVal)
  | none

/-- Python truthiness: `""`, `0`, `False`, `[]` and `None` are falsy. -/
def PyVal.truthy : PyVal → Bool
  | .str s => !(s == "")
  | .int n => !(n == 0)
  | .bool b => b
  | .list xs => !xs.isEmpty
  | .none => false

mutual
/-- Python `repr` of a value (string escaping inside quotes elided). -/
def PyVal.reprStr : PyVal → String
  | .str s => "'" ++ s ++ "'"
  | .int n => toString n
  | .bool b => cond b "True" "False"
  | .list xs => "[" ++ PyVal.reprList xs ++ "]"
  | .none => "None"

/-- `repr` of list elements joined by `", "`. -/
def PyVal.reprList : List PyVal → String
  | [] => ""
  | [x] => PyVal.reprStr x
  | x :: y :: xs => PyVal.reprStr x ++ ", " ++ PyVal.reprList (y :: xs)
end

/-- Python `str()`: the string itself for strings, `repr` otherwise. -/
def PyVal.toStr : PyVal → String
  | .str s => s
  | v => v.reprStr

/-- The Python type name, used in `TypeError` messages. -/
def PyVal.typeName : PyVal → String
  | .str _ => "str"
  | .int _ => "int"
  | .bool _ => "bool"
  | .list _ => "list"
  | .none => "NoneType"

/-- Python `str.strip()`: remove leading and trailing whitespace. -/
def pyStrip (s : String) : String :=
  ⟨(((s.data.dropWhile Char.isWhitespace).reverse.dropWhile
      Char.isWhitespace).reverse)⟩

/-- Value of a nonempty digit string, most significant digit first. -/
def digitsVal (ds : List Char) : Int :=
  ds.foldl (fun a c => a * 10 + ((c.toNat : Int) - 48)) 0

/-- Python `int(s)` on a string: optional surrounding whitespace, an
optional sign, then one or more decimal digits; `Option.none` models the
`ValueError` raised otherwise. -/
def pyStrToInt (s : String) : Option Int :=
  match (pyStrip s).data with
  | [] => Option.none
  | '+' :: ds =>
      if ds ≠ [] ∧ ds.all Char.isDigit then some (digitsVal ds) else Option.none
  | '-' :: ds =>
      if ds ≠ [] ∧ ds.all Char.isDigit then some (-(digitsVal ds)) else Option.none
  | ds =>
      if ds.all Char.isDigit then some (digitsVal ds) else Option.none

/-- Outcome of the Python expression `int(x)`. -/
inductive IntCastOutcome where
  | ok (n : Int)
  | valueError
  | typeError (tname : String)
deriving DecidableEq, Repr

/-- Python `int()` applied to an optional payload value: strings parse or
raise `ValueError`; ints and bools convert; lists and `None` raise
`TypeError` carrying the offending type's name. -/
def pyIntCast : Option PyVal → IntCastOutcome
  | Option.none => .typeError "NoneType"
  | some (.str s) =>
      match pyStrToInt s with
      | some n => .ok n
      | Option.none => .valueError
  | some (.int n) => .ok n
  | some (.bool b) => .ok (cond b 1 0)
  | some (.list _) => .typeError "list"
  | some PyVal.none => .typeError "NoneType"

/-- A parsed JSON object, as an association list (Python `dict`). -/
def PyDict := List (String × PyVal)

/-- Python `data.get(key)`: the value at `key`, or `None`-as-absent. -/
def PyDict.get (d : PyDict) (k : String) : Option PyVal :=
  (List.find? (fun p => p.fst == k) d).map Prod.snd

/-- `required_fields` from `generate`, in source order. -/
def requiredFields : List String :=
  ["age", "country", "state", "interests", "tone", "perspective", "hookline"]

/-- The comprehension filter in `generate`:
`not data.get(field) or str(data.get(field)).strip() == ""`. -/
def fieldMissing (d : PyDict) (f : String) : Bool :=
  match d.get f with
  | Option.none => true
  | some v => !v.truthy || (pyStrip v.toStr == "")

/-- `missing_fields = [field for field in required_fields if ...]`. -/
def missingFieldsOf (d : PyDict) : List String :=
  requiredFields.filter (fieldMissing d)

/-- String interpolated by `str()` at a format site (`f"...{x}..."`). -/
def fmtOpt : Option PyVal → String
  | Option.none => "None"
  | some v => v.toStr

/-- The f-string prompt built by `generate` from the extracted fields. -/
def mkPrompt (d : PyDict) : String :=
  "Generate a " ++ fmtOpt (d.get "tone") ++
  " social media post for a " ++ fmtOpt (d.get "age") ++
  "-year-old from " ++ fmtOpt (d.get "state") ++
  ", " ++ fmtOpt (d.get "country") ++
  ", interested in " ++ fmtOpt (d.get "interests") ++
  ". The perspective should be " ++ fmtOpt (d.get "perspective") ++
  ". Start with: \"" ++ fmtOpt (d.get "hookline") ++ "\""

/-- Outcome of the OpenAI chat-completion call, as seen at the call site:
generated text, an `openai.APIError`, or any other exception. -/
inductive ApiOutcome where
  | ok (text : String)
  | apiError (msg : String)
  | exn (msg : String)
deriving DecidableEq, Repr

/-- The JSON result of the `generate` handler. -/
inductive GenResult where
  | invalidPayload (msg : String)
  | missingFields (fields : List String)
  | invalidAge (msg : String)
  | success (prompt post : String)
  | apiErr (msg : String)
  | serverError (msg : String)
deriving DecidableEq, Repr

/-- The `success` flag of the handler's JSON response. -/
def GenResult.successFlag : GenResult → Bool
  | .success _ _ => true
  | _ => false

/-- The `error` text of the handler's JSON response (empty on success). -/
def GenResult.errorText : GenResult → String
  | .invalidPayload m => m
  | .missingFields fs => "Missing required fields: " ++ String.intercalate ", " fs
  | .invalidAge m => m
  | .success _ _ => ""
  | .apiErr m => m
  | .serverError m => m

/-- Whether a `generate` result is one of the local validation errors
(`InvalidPayload`, `MissingFields`, `InvalidAge`). -/
def GenResult.isValidationError : GenResult → Bool
  | .invalidPayload _ => true
  | .missingFields _ => true
  | .invalidAge _ => true
  | _ => false

/-- The `generate` handler (src/app.py, `/generate`).  `payload` is the
parsed JSON body (`Option.none` when `request.get_json()` yields `None`);
`oracle` maps the prompt to the OpenAI call's outcome.  Returns the
structured result and the list of prompts sent to OpenAI. -/
def generate (payload : Option PyDict) (oracle : String → ApiOutcome) :
    GenResult × List String :=
  match payload with
  | Option.none => (.invalidPayload "No JSON data received", [])
  | some data =>
    let missing := missingFieldsOf data
    if missing.isEmpty = false then
      (.missingFields missing, [])
    else
      match pyIntCast (data.get "age") with
      | .ok n =>
          if n < 1 ∨ n > 120 then
            (.invalidAge "Age must be between 1 and 120", [])
          else
            let prompt := mkPrompt data
            match oracle prompt with
            | .ok text => (.success prompt (pyStrip text), [prompt])
            | .apiError m => (.apiErr ("OpenAI API error: " ++ m), [prompt])
            | .exn m => (.serverError ("Server error: " ++ m), [prompt])
      | .valueError => (.invalidAge "Age must be a valid number", [])
      | .typeError tn =>
          (.serverError ("Server error: int() argument must be a string, a bytes-like object or a real number, not '" ++ tn ++ "'"), [])

/-- Outcome of `twitter_api.update_status`: a tweet id, a
`tweepy.errors.TweepyException`, or any other exception. -/
inductive TweetOutcome where
  | ok (id : Nat)
  | tweepyError (msg : String)
  | exn (msg : String)
deriving DecidableEq, Repr

/-- The JSON result of the `post_to_twitter` handler. -/
inductive PubResult where
  | invalidPayload (msg : String)
  | missingText (msg : String)
  | success (msg : String) (tweetId : Nat) (tweetUrl : String)
  | publishError (msg : String)
  | serverError (msg : String)
deriving DecidableEq, Repr

/-- The `success` flag of the publish response. -/
def PubResult.successFlag : PubResult → Bool
  | .success _ _ _ => true
  | _ => false

/-- The `error` text of the publish response (empty on success). -/
def PubResult.errorText : PubResult → String
  | .invalidPayload m => m
  | .missingText m => m
  | .success _ _ _ => ""
  | .publishError m => m
  | .serverError m => m

/-- Whether a publish result is a local validation error. -/
def PubResult.isValidationError : PubResult → Bool
  | .invalidPayload _ => true
  | .missingText _ => true
  | _ => false

/-- The length-policy transform of `post_to_twitter`:
`if len(post_text) > 280: post_text = post_text[:277] + "..."`. -/
def truncatePost (s : String) : String :=
  if s.length > 280 then s.take 277 ++ "..." else s

/-- The `post_to_twitter` handler (src/app.py, `/post-to-twitter`).
`oracle` maps the (possibly truncated) text to the Twitter call's
outcome.  Returns the structured result and the list of texts sent to
Twitter.  A truthy non-string `post` makes `post_text.strip()` raise
`AttributeError`, caught by the outer handler. -/
def postToTwitter (payload : Option PyDict) (oracle : String → TweetOutcome) :
    PubResult × List String :=
  match payload with
  | Option.none => (.invalidPayload "No JSON data received", [])
  | some data =>
    match data.get "post" with
    | Option.none => (.missingText "No post text provided", [])
    | some v =>
      if v.truthy = false then
        (.missingText "No post text provided", [])
      else
        match v with
        | .str s =>
          if pyStrip s == "" then
            (.missingText "No post text provided", [])
          else
            let text := truncatePost s
            match oracle text with
            | .ok id =>
                (.success "Post successfully shared on Twitter!" id
                  ("https://twitter.com/user/status/" ++ toString id), [text])
            | .tweepyError m =>
                (.publishError ("Twitter posting failed: " ++ m), [text])
            | .exn m => (.serverError ("Server error: " ++ m), [text])
        | w =>
            (.serverError ("Server error: '" ++ w.typeName ++
              "' object has no attribute 'strip'"), [])

/-! ## Helper lemmas -/

theorem filter_eq_single {α : Type} [DecidableEq α] :
    ∀ {L : List α}, L.Nodup → ∀ {f : α}, f ∈ L → ∀ {p : α → Bool}, p f = true →
      (∀ g ∈ L, g ≠ f → p g = false) → L.filter p = [f] := by
  intro L
  induction L with
  | nil => intro _ f hf; cases hf
  | cons a t ih =>
    intro hnd f hf p hp ho
    rcases List.mem_cons.mp hf with rfl | hft
    · have ht : ∀ g ∈ t, ¬p g = true := by
        intro g hg hpg
        have hgf : g ≠ f := by
          rintro rfl
          exact (List.nodup_cons.mp hnd).1 hg
        rw [ho g (List.mem_cons_of_mem _ hg) hgf] at hpg
        cases hpg
      rw [List.filter_cons_of_pos hp, List.filter_eq_nil_iff.mpr ht]
    · have ha : ¬p a = true := by
        have haf : a ≠ f := by
          rintro rfl
          exact (List.nodup_cons.mp hnd).1 hft
        rw [ho a (List.mem_cons_self a t) haf]
        exact Bool.false_ne_true
      rw [List.filter_cons_of_neg ha]
      exact ih (List.nodup_cons.mp hnd).2 hft hp
        fun g hg => ho g (List.mem_cons_of_mem _ hg)

theorem missingFieldsOf_single (d : PyDict) (f : String) (hf : f ∈ requiredFields)
    (h1 : fieldMissing d f = true)
    (h2 : ∀ g ∈ requiredFields, g ≠ f → fieldMissing d g = false) :
    missingFieldsOf d = [f] :=
  filter_eq_single (by decide) hf h1 h2

/-! ## Claim theorems -/

/-- C3: if exactly one required field is omitted or blank after trimming
and the other six are non-blank, `generate` fails with a `MissingFields`
error naming exactly that field, and no external call occurs. -/
theorem generate_missing_exactly_one (d : PyDict) (o : String → ApiOutcome)
    (f : String) (hf : f ∈ requiredFields) (h1 : fieldMissing d f = true)
    (h2 : ∀ g ∈ requiredFields, g ≠ f → fieldMissing d g = false) :
    generate (some d) o = (.missingFields [f], []) := by
  have hm := missingFieldsOf_single d f hf h1 h2
  simp only [generate, hm]
  simp

/-- The spec's example payload with `tone` omitted. -/
def exampleNoTone : PyDict :=
  [("age", PyVal.int 25), ("country", PyVal.str "USA"),
   ("state", PyVal.str "CA"), ("interests", PyVal.str "hiking"),
   ("perspective", PyVal.str "first-person"),
   ("hookline", PyVal.str "Just got back!")]

/-- A collaborator oracle that always returns generated text. -/
def okOracle : String → ApiOutcome := fun _ => ApiOutcome.ok "generated"

theorem generate_missing_exactly_one_witness :
    generate (some exampleNoTone) okOracle
      = (.missingFields ["tone"], []) :=
  generate_missing_exactly_one exampleNoTone okOracle "tone"
    (by decide) (by decide) (by decide)

/-- C1: when all seven fields are present and non-blank, an `age` that
fails to parse as an integer, or parses outside `[1,120]`, makes
`generate` fail with the corresponding `InvalidAge` error and no
external call occurs. -/
theorem generate_invalid_age (d : PyDict) (o : String → ApiOutcome)
    (hnm : missingFieldsOf d = []) :
    (pyIntCast (d.get "age") = .valueError →
      generate (some d) o = (.invalidAge "Age must be a valid number", [])) ∧
    (∀ n : Int, pyIntCast (d.get "age") = .ok n → (n < 1 ∨ n > 120) →
      generate (some d) o
        = (.invalidAge "Age must be between 1 and 120", [])) := by
  constructor
  · intro h
    simp only [generate, hnm, h]
    simp
  · intro n h hn
    simp only [generate, hnm, h]
    simp [hn]

/-- The spec's example payload with an out-of-range `age`. -/
def exampleAge200 : PyDict :=
  [("age", PyVal.str "200"), ("country", PyVal.str "USA"),
   ("state", PyVal.str "CA"), ("interests", PyVal.str "hiking"),
   ("tone", PyVal.str "excited"), ("perspective", PyVal.str "first-person"),
   ("hookline", PyVal.str "Just got back!")]

theorem generate_invalid_age_witness :
    generate (some exampleAge200) okOracle
      = (.invalidAge "Age must be between 1 and 120", []) :=
  (generate_invalid_age exampleAge200 okOracle (by decide)).2 200
    (by decide) (by decide)

theorem infix_append_outer {m x : List Char} (y : List Char)
    (h : m <:+: x) : m <:+: x ++ y := by
  obtain ⟨s, t, rfl⟩ := h
  exact ⟨s, t ++ y, by simp⟩

theorem infix_append_outer' {m y : List Char} (x : List Char)
    (h : m <:+: y) : m <:+: x ++ y := by
  obtain ⟨s, t, rfl⟩ := h
  exact ⟨x ++ s, t, by simp⟩

theorem truncatePost_length_eq (s : String) (h : 280 < s.length) :
    (truncatePost s).length = 280 := by
  unfold truncatePost
  rw [if_pos h, String.length_append, String.take_eq]
  show (s.data.take 277).length + ("..." : String).length = 280
  rw [List.length_take]
  have hd : s.data.length = s.length := rfl
  have h3 : ("..." : String).length = 3 := by decide
  rw [h3]
  omega

theorem truncatePost_length_le (s : String) : (truncatePost s).length ≤ 280 := by
  by_cases h : 280 < s.length
  · rw [truncatePost_length_eq s h]
  · unfold truncatePost
    rw [if_neg h]
    omega

theorem pyStrip_empty : pyStrip "" = "" := by decide

/-- The whole validated branch of `post_to_twitter`, for a non-blank
string payload: the handler's behaviour is determined by the Twitter
call's outcome on the truncated text. -/
theorem postToTwitter_valid (s : String) (o : String → TweetOutcome)
    (hs : pyStrip s ≠ "") :
    postToTwitter (some [("post", PyVal.str s)]) o
      = match o (truncatePost s) with
        | .ok id => (.success "Post successfully shared on Twitter!" id
            ("https://twitter.com/user/status/" ++ toString id),
            [truncatePost s])
        | .tweepyError m =>
            (.publishError ("Twitter posting failed: " ++ m), [truncatePost s])
        | .exn m => (.serverError ("Server error: " ++ m), [truncatePost s]) := by
  have hne : s ≠ "" := fun h => hs (h ▸ pyStrip_empty)
  have hb : (pyStrip s == "") = false := beq_eq_false_iff_ne.mpr hs
  have ht : (PyVal.str s).truthy = true := by
    simp [PyVal.truthy, hne]
  simp only [postToTwitter, PyDict.get, List.find?]
  simp [ht, hb]

/-- The whole validated branch of `generate`: with no missing fields and
an in-range integer age, the handler's behaviour is determined by the
OpenAI call's outcome on the built prompt. -/
theorem generate_valid (d : PyDict) (o : String → ApiOutcome) (n : Int)
    (hnm : missingFieldsOf d = []) (hok : pyIntCast (d.get "age") = .ok n)
    (h1 : 1 ≤ n) (h2 : n ≤ 120) :
    generate (some d) o
      = match o (mkPrompt d) with
        | .ok text => (.success (mkPrompt d) (pyStrip text), [mkPrompt d])
        | .apiError m => (.apiErr ("OpenAI API error: " ++ m), [mkPrompt d])
        | .exn m => (.serverError ("Server error: " ++ m), [mkPrompt d]) := by
  have hr : ¬(n < 1 ∨ n > 120) := by omega
  simp only [generate, hnm, hok]
  simp [hr]

/-- C2: for a publish request with non-blank text, the forwarded text is
the truncation transform of the original: unchanged when its length is
at most 280, and otherwise the first 277 units followed by the 3-unit
marker, of length exactly 280. -/
theorem publish_truncation (s : String) (o : String → TweetOutcome)
    (hs : pyStrip s ≠ "") :
    (postToTwitter (some [("post", PyVal.str s)]) o).2 = [truncatePost s] ∧
    (s.length ≤ 280 → truncatePost s = s) ∧
    (280 < s.length →
      truncatePost s = s.take 277 ++ "..." ∧
      (truncatePost s).length = 280) := by
  refine ⟨?_, ?_, ?_⟩
  · rw [postToTwitter_valid s o hs]
    cases o (truncatePost s) <;> rfl
  · intro h
    unfold truncatePost
    rw [if_neg (by omega)]
  · intro h
    refine ⟨?_, truncatePost_length_eq s h⟩
    unfold truncatePost
    rw [if_pos h]

/-- A Twitter oracle that always succeeds. -/
def okTweetOracle : String → TweetOutcome := fun _ => TweetOutcome.ok 99

theorem publish_truncation_witness :
    (postToTwitter (some [("post", PyVal.str "hello")]) okTweetOracle).2
      = [truncatePost "hello"] :=
  (publish_truncation "hello" okTweetOracle (by decide)).1

/-- C10: the truncation transform is idempotent and its output never
exceeds 280 units. -/
theorem truncatePost_idem_and_bounded (s : String) :
    truncatePost (truncatePost s) = truncatePost s ∧
    (truncatePost s).length ≤ 280 := by
  have hle := truncatePost_length_le s
  refine ⟨?_, hle⟩
  conv_lhs => rw [truncatePost]
  rw [if_neg (by omega)]

theorem generate_calls_shape (p : Option PyDict) (o : String → ApiOutcome) :
    (generate p o).2 = [] ∨ (generate p o).1.isValidationError = false := by
  rcases p with _ | d
  · exact Or.inl rfl
  · simp only [generate]
    split
    · exact Or.inl rfl
    · split
      · split
        · exact Or.inl rfl
        · split <;> exact Or.inr rfl
      · exact Or.inl rfl
      · exact Or.inl rfl

theorem postToTwitter_calls_shape (p : Option PyDict)
    (o : String → TweetOutcome) :
    (postToTwitter p o).2 = [] ∨
    (postToTwitter p o).1.isValidationError = false := by
  rcases p with _ | d
  · exact Or.inl rfl
  · simp only [postToTwitter]
    split
    · exact Or.inl rfl
    · split
      · exact Or.inl rfl
      · split
        · split
          · exact Or.inl rfl
          · split <;> exact Or.inr rfl
        · exact Or.inl rfl

/-- C4: whenever either handler returns one of its local validation
errors (unparseable payload, missing/blank fields, invalid age, missing
post text), no text was sent to the external collaborator; in particular
publishing an empty post fails with the missing-text error and performs
no upstream call. -/
theorem validation_error_no_call :
    (∀ (p : Option PyDict) (o : String → ApiOutcome),
      (generate p o).1.isValidationError = true → (generate p o).2 = []) ∧
    (∀ (p : Option PyDict) (o : String → TweetOutcome),
      (postToTwitter p o).1.isValidationError = true →
        (postToTwitter p o).2 = []) ∧
    (∀ o : String → TweetOutcome,
      postToTwitter (some [("post", PyVal.str "")]) o
        = (.missingText "No post text provided", [])) := by
  refine ⟨?_, ?_, ?_⟩
  · intro p o h
    rcases generate_calls_shape p o with h2 | h2
    · exact h2
    · rw [h] at h2
      cases h2
  · intro p o h
    rcases postToTwitter_calls_shape p o with h2 | h2
    · exact h2
    · rw [h] at h2
      cases h2
  · intro o
    rfl

theorem validation_error_no_call_witness :
    (generate Option.none okOracle).2 = [] ∧
    (postToTwitter (some [("post", PyVal.str " ")]) okTweetOracle).2 = [] :=
  ⟨validation_error_no_call.1 Option.none okOracle (by decide),
   validation_error_no_call.2.1 (some [("post", PyVal.str " ")])
     okTweetOracle (by decide)⟩

/-- C6: on a successful generate call, the result's `post` is the
collaborator's text with surrounding whitespace stripped, and the
result's `prompt` is exactly the prompt that was sent. -/
theorem generate_success_result (d : PyDict) (o : String → ApiOutcome)
    (n : Int) (t : String) (hnm : missingFieldsOf d = [])
    (hok : pyIntCast (d.get "age") = .ok n) (h1 : 1 ≤ n) (h2 : n ≤ 120)
    (ht : o (mkPrompt d) = .ok t) :
    generate (some d) o = (.success (mkPrompt d) (pyStrip t), [mkPrompt d]) := by
  rw [generate_valid d o n hnm hok h1 h2, ht]

/-- The spec's example payload, complete and valid. -/
def exampleValid : PyDict :=
  [("age", PyVal.str "25"), ("country", PyVal.str "USA"),
   ("state", PyVal.str "CA"), ("interests", PyVal.str "hiking"),
   ("tone", PyVal.str "excited"), ("perspective", PyVal.str "first-person"),
   ("hookline", PyVal.str "Just got back!")]

theorem generate_success_result_witness :
    generate (some exampleValid) okOracle
      = (.success (mkPrompt exampleValid) (pyStrip "generated"),
         [mkPrompt exampleValid]) :=
  generate_success_result exampleValid okOracle 25 "generated"
    (by decide) (by decide) (by decide) (by decide) rfl

/-- C7: when the external collaborator fails with a message, either
handler returns a structured non-success result whose error text
contains the collaborator's message as a substring (the handlers are
total functions, so no failure raises out of them). -/
theorem upstream_error_surfaced :
    (∀ (d : PyDict) (o : String → ApiOutcome) (n : Int) (m : String),
      missingFieldsOf d = [] → pyIntCast (d.get "age") = .ok n →
      1 ≤ n → n ≤ 120 → o (mkPrompt d) = .apiError m →
      (generate (some d) o).1.successFlag = false ∧
      m.data <:+: ((generate (some d) o).1.errorText).data) ∧
    (∀ (s : String) (o : String → TweetOutcome) (m : String),
      pyStrip s ≠ "" → o (truncatePost s) = .tweepyError m →
      (postToTwitter (some [("post", PyVal.str s)]) o).1.successFlag = false ∧
      m.data <:+:
        ((postToTwitter (some [("post", PyVal.str s)]) o).1.errorText).data) := by
  constructor
  · intro d o n m hnm hok h1 h2 he
    rw [generate_valid d o n hnm hok h1 h2, he]
    refine ⟨rfl, ?_⟩
    show m.data <:+: ("OpenAI API error: " ++ m).data
    rw [String.data_append]
    exact (List.suffix_append _ _).isInfix
  · intro s o m hs he
    rw [postToTwitter_valid s o hs, he]
    refine ⟨rfl, ?_⟩
    show m.data <:+: ("Twitter posting failed: " ++ m).data
    rw [String.data_append]
    exact (List.suffix_append _ _).isInfix

/-- An OpenAI oracle that always fails with an API error. -/
def errOracle : String → ApiOutcome := fun _ => ApiOutcome.apiError "boom"

/-- A Twitter oracle that always fails with a Tweepy error. -/
def errTweetOracle : String → TweetOutcome :=
  fun _ => TweetOutcome.tweepyError "bam"

theorem upstream_error_surfaced_witness :
    ((generate (some exampleValid) errOracle).1.successFlag = false ∧
      "boom".data <:+:
        ((generate (some exampleValid) errOracle).1.errorText).data) ∧
    ((postToTwitter (some [("post", PyVal.str "hi")]) errTweetOracle).1.successFlag
        = false ∧
      "bam".data <:+:
        ((postToTwitter (some [("post", PyVal.str "hi")])
          errTweetOracle).1.errorText).data) :=
  ⟨upstream_error_surfaced.1 exampleValid errOracle 25 "boom"
      (by decide) (by decide) (by decide) (by decide) rfl,
   upstream_error_surfaced.2 "hi" errTweetOracle "bam" (by decide) rfl⟩

/-- C8: the presence check uses Python truthiness, so a present but
falsy field value counts as missing; in particular `age = 0` makes
`generate` fail with `MissingFields` naming `age`, not with the
out-of-range `InvalidAge` error. -/
theorem falsy_field_counts_missing :
    (∀ v : PyVal, v.truthy = false → ∀ (d : PyDict) (f : String),
      d.get f = some v → fieldMissing d f = true) ∧
    (∀ (d : PyDict) (o : String → ApiOutcome),
      d.get "age" = some (PyVal.int 0) →
      (∀ g ∈ requiredFields, g ≠ "age" → fieldMissing d g = false) →
      generate (some d) o = (.missingFields ["age"], [])) := by
  constructor
  · intro v hv d f hget
    simp [fieldMissing, hget, hv]
  · intro d o hage hrest
    have h1 : fieldMissing d "age" = true := by
      simp [fieldMissing, hage, PyVal.truthy]
    have hm := missingFieldsOf_single d "age" (by decide) h1 hrest
    simp only [generate, hm]
    simp

/-- The spec's example payload with `age` present but equal to `0`. -/
def exampleAgeZero : PyDict :=
  [("age", PyVal.int 0), ("country", PyVal.str "USA"),
   ("state", PyVal.str "CA"), ("interests", PyVal.str "hiking"),
   ("tone", PyVal.str "excited"), ("perspective", PyVal.str "first-person"),
   ("hookline", PyVal.str "Just got back!")]

theorem falsy_field_counts_missing_witness :
    generate (some exampleAgeZero) okOracle
      = (.missingFields ["age"], []) :=
  falsy_field_counts_missing.2 exampleAgeZero okOracle rfl (by decide)

/-- C9: a truthy `age` whose `int()` conversion raises `TypeError` (for
example a list) is not caught by the `except ValueError` handler:
`generate` falls through to the catch-all and returns the internal
"Server error" result, never an `InvalidAge` error. -/
theorem generate_age_typeerror (d : PyDict) (o : String → ApiOutcome)
    (tn : String) (hnm : missingFieldsOf d = [])
    (hc : pyIntCast (d.get "age") = .typeError tn) :
    generate (some d) o
      = (.serverError
          ("Server error: int() argument must be a string, a bytes-like object or a real number, not '"
            ++ tn ++ "'"), []) ∧
    (∀ m, (generate (some d) o).1 ≠ .invalidAge m) ∧
    "Server error".data <+: ((generate (some d) o).1.errorText).data := by
  have he : generate (some d) o
      = (.serverError
          ("Server error: int() argument must be a string, a bytes-like object or a real number, not '"
            ++ tn ++ "'"), []) := by
    simp only [generate, hnm, hc]
    simp
  refine ⟨he, ?_, ?_⟩
  · intro m
    rw [he]
    simp
  · rw [he]
    show "Server error".data <+:
      ("Server error: int() argument must be a string, a bytes-like object or a real number, not '"
        ++ tn ++ "'").data
    rw [String.data_append, String.data_append]
    have h0 : "Server error".data <+:
        ("Server error: int() argument must be a string, a bytes-like object or a real number, not '"
          : String).data := by decide
    exact (h0.trans (List.prefix_append _ _)).trans (List.prefix_append _ _)

/-- The spec's example payload with a list-valued `age`. -/
def exampleAgeList : PyDict :=
  [("age", PyVal.list [PyVal.int 5]), ("country", PyVal.str "USA"),
   ("state", PyVal.str "CA"), ("interests", PyVal.str "hiking"),
   ("tone", PyVal.str "excited"), ("perspective", PyVal.str "first-person"),
   ("hookline", PyVal.str "Just got back!")]

theorem generate_age_typeerror_witness :
    generate (some exampleAgeList) okOracle
      = (.serverError
          ("Server error: int() argument must be a string, a bytes-like object or a real number, not '"
            ++ "list" ++ "'"), []) :=
  (generate_age_typeerror exampleAgeList okOracle "list"
    (by decide) (by decide)).1

/-- C5: for a generate request that passes validation, the prompt sent
to the collaborator (and echoed in a successful result) contains each of
the seven supplied field values verbatim as substrings, with the
hookline appearing as a literal quoted opening. -/
theorem prompt_contains_fields (d : PyDict) (o : String → ApiOutcome)
    (n : Int) (hnm : missingFieldsOf d = [])
    (hok : pyIntCast (d.get "age") = .ok n) (h1 : 1 ≤ n) (h2 : n ≤ 120) :
    (generate (some d) o).2 = [mkPrompt d] ∧
    (∀ t, o (mkPrompt d) = .ok t →
      (generate (some d) o).1 = .success (mkPrompt d) (pyStrip t)) ∧
    (∀ f ∈ requiredFields,
      (fmtOpt (d.get f)).data <:+: (mkPrompt d).data) ∧
    ("\"" ++ fmtOpt (d.get "hookline") ++ "\"").data <:+: (mkPrompt d).data := by
  refine ⟨?_, ?_, ?_, ?_⟩
  · rw [generate_valid d o n hnm hok h1 h2]
    cases o (mkPrompt d) <;> rfl
  · intro t ht
    rw [generate_valid d o n hnm hok h1 h2, ht]
  · intro f hf
    simp only [requiredFields, List.mem_cons, List.not_mem_nil, or_false] at hf
    rcases hf with rfl | rfl | rfl | rfl | rfl | rfl | rfl <;>
      · simp only [mkPrompt, String.data_append, List.append_assoc]
        repeat first
          | exact (List.prefix_append _ _).isInfix
          | apply infix_append_outer'
  · simp only [mkPrompt, String.data_append, List.append_assoc]
    have hsplit :
        (['.', ' ', 'S', 't', 'a', 'r', 't', ' ', 'w', 'i', 't', 'h', ':',
          ' ', '\"'] : List Char)
          = ['.', ' ', 'S', 't', 'a', 'r', 't', ' ', 'w', 'i', 't', 'h',
            ':', ' '] ++ ['\"'] := rfl
    rw [hsplit, List.append_assoc]
    repeat first
      | exact List.infix_rfl
      | apply infix_append_outer'

theorem prompt_contains_fields_witness :
    (generate (some exampleValid) okOracle).2 = [mkPrompt exampleValid] :=
  (prompt_contains_fields exampleValid okOracle 25
    (by decide) (by decide) (by decide) (by decide)).1
